import Mathlib

/-!
Shallow embedding of the aura-pilot mock telemetry generators
(src/aura-pilot/mock/healthy-telemetry-generator.py,
 src/aura-pilot/mock/thermal-telemetry-generator.py,
 src/aura-pilot/mock/mechanical-telemetry-generator.py; the same three
functions are duplicated in src/aura-pilot/server/mock_telemetry_generator.py).

Python floats are modelled as rationals; every call site of a random
primitive is replaced by an explicit per-tick draw parameter, so each
generator becomes a deterministic function of its draw oracle:
- random.random() draws become rational parameters (named ...U),
- np.random.normal(mu, sigma) draws are modelled as mu + sigma * z with z a
  rational standard-normal draw parameter (named ...Z),
- random.randint(a, b) draws become natural-number parameters,
- np.random.choice draws become rational parameters.
Python int(x) truncation toward zero is pyInt, Python round(x, 3) is round3
(round half up on rationals; the half case is immaterial to the claims).
Phase lengths int(total_points * f) are modelled as exact floor divisions
(total_points * 10f) / 10, which agrees with the float computation for all
realistic series lengths.
-/

namespace AuraTelemetry

/-- Link state of a port, the linkState column: "up" or "down". -/
inductive LinkState where
  | up
  | down
deriving DecidableEq

/-- Flipping the link state, the Python expression
"down" if last_link_state == "up" else "up". -/
def flipLS : LinkState → LinkState
  | .up => .down
  | .down => .up

/-- The cumulative_errors dictionary of each generator: the four running
counters FEC_Correctable, FEC_Uncorrectable, CRCErrorCount and
ConnectorInsertionCount. -/
structure Counters where
  fecCorrectable : ℕ
  fecUncorrectable : ℕ
  crcErrorCount : ℕ
  connectorInsertionCount : ℕ
deriving DecidableEq

/-- Componentwise order on the four cumulative counters. -/
def Counters.le (a b : Counters) : Prop :=
  a.fecCorrectable ≤ b.fecCorrectable ∧
  a.fecUncorrectable ≤ b.fecUncorrectable ∧
  a.crcErrorCount ≤ b.crcErrorCount ∧
  a.connectorInsertionCount ≤ b.connectorInsertionCount

/-- One emitted telemetry record (one row of the data list). The timestamp
and port columns are omitted: no claim below depends on them. A None value
(metric absent while the link is down) is Option.none. -/
structure Row where
  linkState : LinkState
  snr : Option ℚ
  fecCorrectable : Option ℕ
  fecUncorrectable : Option ℕ
  crcErrorCount : Option ℕ
  temperature : Option ℚ
  voltage : Option ℚ
  fanSpeed : Option ℚ
  humidity : Option ℚ
  airflow : Option ℚ
  ambientTemperature : Option ℚ
  opticalRxPower : Option ℚ
  opticalTxPower : Option ℚ
  linkLatency : Option ℚ
  cableLengthEstimate : Option ℚ
  connectorInsertionCount : Option ℕ
deriving DecidableEq

/-- Python round(x, 3): rounding to three decimal places. -/
def round3 (q : ℚ) : ℚ := (round (q * 1000) : ℤ) / 1000

/-- Python int(x): truncation toward zero. -/
def pyInt (q : ℚ) : ℤ := if 0 ≤ q then ⌊q⌋ else ⌈q⌉

/-- Python max(0, int(g)), the shape of every counter increment, as a
natural number. -/
def nInc (q : ℚ) : ℕ := (max 0 (pyInt q)).toNat

/-- The shared link-state logic of the thermal and mechanical generators
(thermal-telemetry-generator.py lines 108-120, mechanical lines 123-143):
if the cooldown is positive the state is held and the cooldown decremented;
otherwise a uniform draw flapU below the flap probability p flips the state
and arms a fresh cooldown (cdOf chooses the cooldown draw from the new
state, covering the mechanical jiggle special case); otherwise the state is
held with cooldown still 0. The returned state is also the new
last_link_state. -/
def linkAdvance (flapU p : ℚ) (cdOf : LinkState → ℕ) (last : LinkState)
    (cd : ℕ) : LinkState × ℕ :=
  if 0 < cd then (last, cd - 1)
  else if flapU < p then (flipLS last, cdOf (flipLS last))
  else (last, 0)

/-- Mechanical flap probability as a function of the optical degradation
(mechanical-telemetry-generator.py lines 109-121). -/
def mechFlapProb (deg : ℚ) : ℚ :=
  if deg < 1 then 0.001
  else if deg < 2 then 0.02
  else if deg < 3 then 0.08
  else 0.25

/-- Thermal flap probability as a function of the temperature
(thermal-telemetry-generator.py lines 96-106). -/
def thermalFlapProb (t : ℚ) : ℚ :=
  if t < 45 then 0.001
  else if t < 50 then 0.05
  else 0.20

/-- Healthy link-state decision (healthy-telemetry-generator.py line 68):
"up" if random.random() < up_probability (0.995) else "down". -/
def healthyLinkState (u : ℚ) : LinkState :=
  if u < 0.995 then .up else .down

/-- Counters at the start of every series: error counters 0,
ConnectorInsertionCount = int(base) = 5 (thermal and mechanical; the
healthy generator scales the base per port, see healthyInitCounters). -/
def initCounters : Counters := ⟨0, 0, 0, 5⟩

/-! ### Mechanical severity curve (mechanical-telemetry-generator.py lines 55-99) -/

/-- Random draws consumed while building the mechanical degradation curve:
modZ i is the normal(0, 0.3) draw of moderate index i, sevR i the
randint(5, 10) draw of severe index i, sevJ i the np.random.choice jitter
draw, sevZ i the normal(0, 0.5) draw. -/
structure MechCurveDraws where
  modZ : ℕ → ℚ
  sevR : ℕ → ℕ
  sevJ : ℕ → ℚ
  sevZ : ℕ → ℚ

/-- The four mechanical phase lengths (lines 58-62): normal and early are
int(total_points * 0.2), moderate is int(total_points * 0.3), and the
severe phase takes the remainder. -/
def mechPhases (N : ℕ) : ℕ × ℕ × ℕ × ℕ :=
  (N * 2 / 10, N * 2 / 10, N * 3 / 10, N - N * 2 / 10 - N * 2 / 10 - N * 3 / 10)

/-- Deterministic early-phase ramp (lines 72-75): progress * 1.0 dB. -/
def mechEarlyRamp (e i : ℕ) : ℚ := ((i : ℚ) / (e : ℚ)) * 1.0

/-- Deterministic moderate-phase ramp (lines 78-81): the early-phase end
value plus progress * 2.0 dB, before the Gaussian jitter is added. -/
def mechModRamp (start : ℚ) (m i : ℕ) : ℚ := start + ((i : ℚ) / (m : ℚ)) * 2.0

/-- The optical_degradation list (lines 64-99). The two accesses
optical_degradation[-1] raise IndexError on an empty list; they are
modelled by getLast? with the none case propagated, so the builder returns
none exactly when the Python code raises. -/
def mechCurve (d : MechCurveDraws) (N : ℕ) : Option (List ℚ) :=
  let p := mechPhases N
  let ne := List.replicate p.1 (0 : ℚ) ++
    (List.range p.2.1).map (fun i => mechEarlyRamp p.2.1 i)
  match ne.getLast? with
  | none => none
  | some s1 =>
    let nem := ne ++ (List.range p.2.2.1).map
      (fun i => mechModRamp s1 p.2.2.1 i + d.modZ i)
    match nem.getLast? with
    | none => none
    | some s2 =>
      some (nem ++ (List.range p.2.2.2).map (fun i =>
        if i % d.sevR i = 0 then s2 + 2.0 + d.sevJ i else s2 + 2.0 + d.sevZ i))

/-! ### Mechanical tick loop (mechanical-telemetry-generator.py lines 101-254) -/

/-- Per-tick random draws of the mechanical generator, one field per call
site of a random primitive, in source order. -/
structure MechTickDraws where
  flapU : ℚ
  cdJiggle : ℕ
  cdNormal : ℕ
  snrZ : ℚ
  snrJitterZ : ℚ
  fecCorrU : ℚ
  fecCorrZ : ℚ
  fecUncU : ℚ
  fecUncZ : ℚ
  crcU : ℚ
  crcZ : ℚ
  tempZ : ℚ
  voltZ : ℚ
  fanZ : ℚ
  humZ : ℚ
  airZ : ℚ
  ambZ : ℚ
  rxJZ : ℚ
  txJZ : ℚ
  rxZ : ℚ
  txZ : ℚ
  latZ : ℚ
  latJZ : ℚ
  cabZ : ℚ

/-- The cross-tick mutable state of the mechanical loop: last_link_state,
link_flap_cooldown, cumulative_errors, plus the severity curve itself,
which the reseat event mutates in place (lines 244-251). -/
structure MechState where
  lastState : LinkState
  cooldown : ℕ
  counters : Counters
  curve : List ℚ

/-- Error-counter updates of one mechanical tick (lines 162-187): all three
error counters are touched only while the link is up; error_factor =
1 + max(0, degradation). -/
def mechErrStep (d : MechTickDraws) (deg : ℚ) (st : LinkState)
    (c : Counters) : Counters :=
  if st = .up then
    let errF := 1 + max 0 deg
    { fecCorrectable :=
        if d.fecCorrU < 0.1 * errF then
          c.fecCorrectable + nInc ((1 + 1 * d.fecCorrZ) * errF)
        else c.fecCorrectable
      fecUncorrectable :=
        if 3 < deg ∧ d.fecUncU < 0.08 * errF then
          c.fecUncorrectable + nInc (1 + 1 * d.fecUncZ)
        else c.fecUncorrectable
      crcErrorCount :=
        if d.crcU < 0.05 * errF then
          c.crcErrorCount + nInc ((1 + 1 * d.crcZ) * errF)
        else c.crcErrorCount
      connectorInsertionCount := c.connectorInsertionCount }
  else c

/-- Structurally transparent indexed map, used to express the in-place
window update of the reseat event. -/
def mapFrom (f : ℕ → ℚ → ℚ) : ℕ → List ℚ → List ℚ
  | _, [] => []
  | j, x :: xs => f j x :: mapFrom f (j + 1) xs

/-- The reseat curve mutation (lines 249-250): for j in
range(i, min(i + 30, len)), optical_degradation[j] =
max(0, optical_degradation[j] - 2.0); entries outside the window are kept. -/
def reseatCurve (c : List ℚ) (i : ℕ) : List ℚ :=
  mapFrom (fun j x => if i ≤ j ∧ j < i + 30 then max 0 (x - 2.0) else x) 0 c

/-- The row emitted by one mechanical tick (lines 145-252), as a function
of the tick draws, the degradation, the decided link state, the updated
error counters c1 and the counters c2 after a possible reseat increment
(the row reports the ConnectorInsertionCount after the reseat, line 252). -/
def mechEmit (d : MechTickDraws) (deg : ℚ) (st : LinkState)
    (c1 c2 : Counters) : Row :=
  ⟨st,
    -- SNR (lines 152-160); the severe-phase jitter is added after rounding
    (if st = .up then
      some (if 3 < deg then round3 (32 - deg * 2 + 3 * d.snrZ) + 2 * d.snrJitterZ
        else round3 (32 - deg * 2 + 3 * d.snrZ))
    else none),
    (if st = .up then some c1.fecCorrectable else none),
    (if st = .up then some c1.fecUncorrectable else none),
    (if st = .up then some c1.crcErrorCount else none),
    some (round3 (35 + 2 * d.tempZ)),
    (if st = .up then
      some (round3 (3.3 + (if 3 < deg then 0.1 * 1.5 else 0.1) * d.voltZ))
    else none),
    some (round3 (3000 + 200 * d.fanZ)),
    some (round3 (45 + 5 * d.humZ)),
    some (round3 (15 + 2 * d.airZ)),
    some (round3 (22 + 1 * d.ambZ)),
    (if st = .up then
      some (round3 ((-5) - deg * 1.2 - 0.2 * d.rxJZ * min 1 (deg / 2) + 1 * d.rxZ))
    else none),
    (if st = .up then
      some (round3 (0 - deg * 0.7 - 0.1 * d.txJZ * min 1 (deg / 2) + 0.5 * d.txZ))
    else none),
    -- LinkLatency (lines 226-232); severe-phase jitter added after rounding
    (if st = .up then
      some (if 3 < deg then round3 (50 + deg * 5 + 10 * d.latZ) + |10 * d.latJZ|
        else round3 (50 + deg * 5 + 10 * d.latZ))
    else none),
    (if 3 < deg ∧ st = .up then some (round3 (10 + 0.5 * d.cabZ)) else some 10),
    some c2.connectorInsertionCount⟩

/-- One tick of the mechanical generator (lines 105-254): emitted row and
next state, assembled from linkAdvance, mechErrStep, the reseat event and
mechEmit. -/
def mechStep (N : ℕ) (d : MechTickDraws) (i : ℕ) (s : MechState) :
    Row × MechState :=
  let deg := s.curve.getD i 0
  let adv := linkAdvance d.flapU (mechFlapProb deg)
    (fun ns => if 2 < deg ∧ ns = .up then d.cdJiggle else d.cdNormal)
    s.lastState s.cooldown
  let st := adv.1
  let c1 := mechErrStep d deg st s.counters
  let c2 := if i = N * 8 / 10 ∧ st = .down then
      { c1 with connectorInsertionCount := c1.connectorInsertionCount + 1 }
    else c1
  let curve2 := if i = N * 8 / 10 ∧ st = .down then reseatCurve s.curve i
    else s.curve
  (mechEmit d deg st c1 c2, ⟨st, adv.2, c2, curve2⟩)

/-- Mechanical loop state before tick i, for a series whose built severity
curve is curve0. -/
def mechStateAt (N : ℕ) (td : ℕ → MechTickDraws) (curve0 : List ℚ) :
    ℕ → MechState
  | 0 => ⟨.up, 0, initCounters, curve0⟩
  | i + 1 => (mechStep N (td i) i (mechStateAt N td curve0 i)).2

/-- Row emitted at tick i of the mechanical series. -/
def mechRowAt (N : ℕ) (td : ℕ → MechTickDraws) (curve0 : List ℚ) (i : ℕ) :
    Row :=
  (mechStep N (td i) i (mechStateAt N td curve0 i)).1

/-- The whole mechanical series: builds the degradation curve, then runs
the tick loop; none models the uncaught IndexError of the curve builder. -/
def generate_network_telemetry_with_mechanical_issues (N : ℕ)
    (cd : MechCurveDraws) (td : ℕ → MechTickDraws) : Option (List Row) :=
  (mechCurve cd N).map (fun c => (List.range N).map (mechRowAt N td c))

/-! ### Thermal temperature curve (thermal-telemetry-generator.py lines 55-86) -/

/-- Random draws of the thermal temperature curve: normZ i is the
normal(0, variation * 0.5) standard draw of normal-phase index i, riseZ i
the normal(0, 1.0) draw of rising index i, highZ i the normal(0, 2.0)
standard draw of high-phase index i. -/
structure ThermalCurveDraws where
  normZ : ℕ → ℚ
  riseZ : ℕ → ℚ
  highZ : ℕ → ℚ

/-- The temp_progression list (lines 58-86): phases int(N * 0.3),
int(N * 0.3) and the remainder; the access temp_progression[-1] at line 73
raises IndexError on an empty list, modelled by getLast? with none
propagated. Temperatures: normal 35 + 1 * z, rising a linear ramp from the
last normal value to 55 plus normal(0, 1) noise, high 55 + 2 * z. -/
def thermalCurve (d : ThermalCurveDraws) (N : ℕ) : Option (List ℚ) :=
  let normal := N * 3 / 10
  let rising := N * 3 / 10
  let high := N - normal - rising
  let norms := (List.range normal).map (fun i => 35 + 1 * d.normZ i)
  match norms.getLast? with
  | none => none
  | some startT =>
    some (norms ++
      (List.range rising).map
        (fun (i : ℕ) => startT + (55 - startT) * ((i : ℚ) / (rising : ℚ)) + 1 * d.riseZ i) ++
      (List.range high).map (fun i => 55 + 2 * d.highZ i))

/-! ### Thermal tick loop (thermal-telemetry-generator.py lines 88-204) -/

/-- Per-tick random draws of the thermal generator, one field per random
call site. -/
structure ThermalTickDraws where
  flapU : ℚ
  cd : ℕ
  snrZ : ℚ
  fecCorrU : ℚ
  fecCorrZ : ℚ
  fecUncU : ℚ
  fecUncZ : ℚ
  crcU : ℚ
  crcZ : ℚ
  voltZ : ℚ
  fanZ : ℚ
  humZ : ℚ
  airZ : ℚ
  ambZ : ℚ
  rxZ : ℚ
  txZ : ℚ
  latZ : ℚ

/-- Cross-tick state of the thermal loop: last_link_state,
link_flap_cooldown and the cumulative counters (the temperature curve is
immutable here). -/
structure ThermalState where
  lastState : LinkState
  cooldown : ℕ
  counters : Counters

/-- Error-counter updates of one thermal tick (lines 137-164):
error_factor = 1 + max(0, (t - 40) / 10); FEC correctable draw is
normal(0.5, 0.5) * error_factor, FEC uncorrectable fires only above 48
degrees, CRC draw is normal(1, 1) * error_factor; all only while up. -/
def thermalErrStep (d : ThermalTickDraws) (t : ℚ) (st : LinkState)
    (c : Counters) : Counters :=
  if st = .up then
    let errF := 1 + max 0 ((t - 40) / 10)
    { fecCorrectable :=
        if d.fecCorrU < 0.1 * errF then
          c.fecCorrectable + nInc ((0.5 + 0.5 * d.fecCorrZ) * errF)
        else c.fecCorrectable
      fecUncorrectable :=
        if 48 < t ∧ d.fecUncU < 0.05 * errF then
          c.fecUncorrectable + nInc (1 + 1 * d.fecUncZ)
        else c.fecUncorrectable
      crcErrorCount :=
        if d.crcU < 0.05 * errF then
          c.crcErrorCount + nInc ((1 + 1 * d.crcZ) * errF)
        else c.crcErrorCount
      connectorInsertionCount := c.connectorInsertionCount }
  else c

/-- The row emitted by one thermal tick (lines 122-202). Temperature,
FanSpeed, Humidity, Airflow, AmbientTemperature, CableLengthEstimate and
ConnectorInsertionCount are emitted on every record; the remaining metrics
are None while the link is down. -/
def thermalEmit (d : ThermalTickDraws) (t : ℚ) (st : LinkState)
    (c1 : Counters) : Row :=
  ⟨st,
    (if st = .up then
      some (round3 (32 * max 0 (1 - (t - 35) / 30) + 3 * d.snrZ))
    else none),
    (if st = .up then some c1.fecCorrectable else none),
    (if st = .up then some c1.fecUncorrectable else none),
    (if st = .up then some c1.crcErrorCount else none),
    some (round3 t),
    (if st = .up then some (round3 (3.3 + 0.1 * d.voltZ)) else none),
    some (round3 (3000 + max 0 ((t - 40) * 50) + 200 * d.fanZ)),
    some (round3 (45 + 5 * d.humZ)),
    some (round3 (15 + 2 * d.airZ)),
    some (round3 (22 + 1 * d.ambZ)),
    (if st = .up then
      some (round3 ((-5) - max 0 ((t - 45) * 0.1) + 1 * d.rxZ))
    else none),
    (if st = .up then
      some (round3 (0 - max 0 ((t - 45) * 0.1) / 2 + 0.5 * d.txZ))
    else none),
    (if st = .up then
      some (round3 (50 + max 0 ((t - 40) * 2) + 10 * d.latZ))
    else none),
    some 10,
    some c1.connectorInsertionCount⟩

/-- One tick of the thermal generator (lines 92-204): emitted row and next
state, assembled from linkAdvance, thermalErrStep and thermalEmit. -/
def thermalStep (d : ThermalTickDraws) (i : ℕ) (curve : List ℚ)
    (s : ThermalState) : Row × ThermalState :=
  let t := curve.getD i 0
  let adv := linkAdvance d.flapU (thermalFlapProb t) (fun _ => d.cd)
    s.lastState s.cooldown
  let c1 := thermalErrStep d t adv.1 s.counters
  (thermalEmit d t adv.1 c1, ⟨adv.1, adv.2, c1⟩)

/-- Thermal loop state before tick i. -/
def thermalStateAt (td : ℕ → ThermalTickDraws) (curve : List ℚ) :
    ℕ → ThermalState
  | 0 => ⟨.up, 0, initCounters⟩
  | i + 1 => (thermalStep (td i) i curve (thermalStateAt td curve i)).2

/-- Row emitted at tick i of the thermal series. -/
def thermalRowAt (td : ℕ → ThermalTickDraws) (curve : List ℚ) (i : ℕ) :
    Row :=
  (thermalStep (td i) i curve (thermalStateAt td curve i)).1

/-- The whole thermal series: builds the temperature curve, then runs the
tick loop; none models the uncaught IndexError of the curve builder. -/
def generate_network_telemetry_with_flapping (N : ℕ)
    (cd : ThermalCurveDraws) (td : ℕ → ThermalTickDraws) :
    Option (List Row) :=
  (thermalCurve cd N).map (fun c => (List.range N).map (thermalRowAt td c))

/-! ### Healthy generator (healthy-telemetry-generator.py lines 6-154) -/

/-- Per-tick random draws of the healthy generator. daily is the
deterministic diurnal factor sin(2 * pi * hour_of_day / 24) of the tick
timestamp (line 92), supplied as an external per-tick parameter. -/
structure HealthyTickDraws where
  linkU : ℚ
  daily : ℚ
  fecCorrU : ℚ
  fecCorrZ : ℚ
  fecUncU : ℚ
  fecUncZ : ℚ
  crcU : ℚ
  crcZ : ℚ
  connU : ℚ
  snrZ : ℚ
  tempZ : ℚ
  voltZ : ℚ
  fanZ : ℚ
  humZ : ℚ
  airZ : ℚ
  ambZ : ℚ
  rxZ : ℚ
  txZ : ℚ
  latZ : ℚ

/-- Per-port baseline scaling (line 51): base + (port - 2.5) * 0.1 * base. -/
def portBase (p base : ℚ) : ℚ := base + (p - 2.5) * 0.1 * base

/-- Humidity clamp of the healthy generator (line 135):
min(max(h, 30), 70). -/
def clampHumidity (q : ℚ) : ℚ := min (max q 30) 70

/-- Initial healthy counters for port p (lines 59-64): error counters 0,
ConnectorInsertionCount = int(port-scaled base 5). -/
def healthyInitCounters (p : ℚ) : Counters :=
  ⟨0, 0, 0, (max 0 (pyInt (portBase p 5))).toNat⟩

/-- Counter updates of one healthy tick (lines 99-111): each error counter
has a 5 percent chance of a max(0, int(normal(base / 100, var / 50)))
increment, ConnectorInsertionCount a 0.05 percent chance of + 1; all only
while the link is up (a down tick emits the row and continues). -/
def healthyCounterStep (p : ℚ) (d : HealthyTickDraws) (st : LinkState)
    (c : Counters) : Counters :=
  if st = .up then
    { fecCorrectable :=
        if d.fecCorrU < 0.05 then
          c.fecCorrectable + nInc (portBase p 10 / 100 + 5 / 50 * d.fecCorrZ)
        else c.fecCorrectable
      fecUncorrectable :=
        if d.fecUncU < 0.05 then
          c.fecUncorrectable + nInc (portBase p 0 / 100 + 1 / 50 * d.fecUncZ)
        else c.fecUncorrectable
      crcErrorCount :=
        if d.crcU < 0.05 then
          c.crcErrorCount + nInc (portBase p 0 / 100 + 2 / 50 * d.crcZ)
        else c.crcErrorCount
      connectorInsertionCount :=
        if d.connU < 0.0005 then c.connectorInsertionCount + 1
        else c.connectorInsertionCount }
  else c

/-- One tick of the healthy generator for port p (lines 66-146): when the
link is down all fifteen metrics are None (lines 71-81); when up, each
metric is computed from the port baseline, the diurnal factor and Gaussian
noise, humidity is clamped to [30, 70], and every float is rounded to three
decimals by the final loop (lines 141-144). -/
def healthyStep (p : ℚ) (d : HealthyTickDraws) (c : Counters) :
    Row × Counters :=
  match healthyLinkState d.linkU with
  | .down =>
    (⟨.down, none, none, none, none, none, none, none, none, none, none,
      none, none, none, none, none⟩, c)
  | .up =>
    let c1 := healthyCounterStep p d .up c
    (⟨.up,
      some (round3 (portBase p 32 + 3 * d.snrZ)),
      some c1.fecCorrectable,
      some c1.fecUncorrectable,
      some c1.crcErrorCount,
      some (round3 (portBase p 35 + d.daily * 5 * 0.5 + 5 * 0.5 * d.tempZ)),
      some (round3 (portBase p 3.3 + d.daily * 0.1 * 0.5 + 0.1 * 0.5 * d.voltZ)),
      some (round3 (portBase p 3000 + d.daily * 200 * 0.5 + 200 * 0.5 * d.fanZ)),
      some (round3 (clampHumidity (portBase p 45 + (-d.daily) * 3 + 1 * d.humZ))),
      some (round3 (portBase p 15 + 2 * d.airZ)),
      some (round3 (portBase p 22 + d.daily * 2 + 0.5 * d.ambZ)),
      some (round3 (portBase p (-5) + 1 * d.rxZ)),
      some (round3 (portBase p 0 + 0.5 * d.txZ)),
      some (round3 (portBase p 50 + 10 * d.latZ)),
      some (round3 (portBase p 10)),
      some c1.connectorInsertionCount⟩, c1)

/-- Healthy counters of port p before tick i. -/
def healthyCountersAt (p : ℚ) (td : ℕ → HealthyTickDraws) : ℕ → Counters
  | 0 => healthyInitCounters p
  | i + 1 => (healthyStep p (td i) (healthyCountersAt p td i)).2

/-- Row emitted at tick i of the healthy series of port p. -/
def healthyRowAt (p : ℚ) (td : ℕ → HealthyTickDraws) (i : ℕ) : Row :=
  (healthyStep p (td i) (healthyCountersAt p td i)).1

/-- All healthy rows, ports 1..P outer, ticks 0..N-1 inner (lines 49-147). -/
def healthyRowsAll (P N : ℕ) (td : ℕ → ℕ → HealthyTickDraws) : List Row :=
  ((List.range P).map (fun (q : ℕ) =>
    (List.range N).map (fun i => healthyRowAt ((q : ℚ) + 1) (td (q + 1)) i))).flatten

/-- The whole healthy series. The healthy generator has no severity curve
and cannot fail before the dataframe step; on an empty row list the access
df[timestamp] at line 152 raises KeyError (a DataFrame built from an empty
list has no columns), modelled by none. -/
def generate_network_telemetry (P N : ℕ) (td : ℕ → ℕ → HealthyTickDraws) :
    Option (List Row) :=
  let rows := healthyRowsAll P N td
  if rows.isEmpty then none else some rows

/-! ## General lemmas -/

theorem round3_intCast (n : ℤ) : round3 ((n : ℚ)) = (n : ℚ) := by
  unfold round3
  rw [show ((n : ℚ) * 1000) = ((n * 1000 : ℤ) : ℚ) by push_cast; ring,
    round_intCast]
  push_cast
  field_simp

theorem round3_idem (q : ℚ) : round3 (round3 q) = round3 q := by
  unfold round3
  rw [div_mul_cancel₀ _ (by norm_num : (1000 : ℚ) ≠ 0), round_intCast]

theorem round3_mono {a b : ℚ} (h : a ≤ b) : round3 a ≤ round3 b := by
  unfold round3
  have hr : round (a * 1000) ≤ round (b * 1000) := by
    rw [round_eq, round_eq]
    exact Int.floor_le_floor (by linarith)
  exact (div_le_div_iff_of_pos_right (by norm_num)).mpr (by exact_mod_cast hr)

theorem round3_eval (q : ℚ) (n : ℤ) (h1 : (n : ℚ) ≤ q * 1000 + 1 / 2)
    (h2 : q * 1000 + 1 / 2 < (n : ℚ) + 1) : round3 q = (n : ℚ) / 1000 := by
  unfold round3
  rw [round_eq]
  congr 1
  have hf : ⌊q * 1000 + 1 / 2⌋ = n := by
    rw [Int.floor_eq_iff]
    exact ⟨h1, by exact_mod_cast h2⟩
  exact_mod_cast hf

theorem counters_le_rfl (c : Counters) : c.le c := ⟨le_rfl, le_rfl, le_rfl, le_rfl⟩

theorem counters_le_comp {a b c : Counters} (h1 : a.le b) (h2 : b.le c) :
    a.le c :=
  ⟨h1.1.trans h2.1, h1.2.1.trans h2.2.1, h1.2.2.1.trans h2.2.2.1,
    h1.2.2.2.trans h2.2.2.2⟩

/-! ## Counter monotonicity (claim C1) -/

theorem mechErrStep_le (d : MechTickDraws) (deg : ℚ) (st : LinkState)
    (c : Counters) : c.le (mechErrStep d deg st c) := by
  unfold mechErrStep
  split_ifs <;> refine ⟨?_, ?_, ?_, ?_⟩ <;> dsimp <;>
    first
    | omega
    | (split_ifs <;> omega)

theorem mechStep_counters_le (N : ℕ) (d : MechTickDraws) (i : ℕ)
    (s : MechState) : s.counters.le (mechStep N d i s).2.counters := by
  unfold mechStep
  dsimp only
  split_ifs with h
  · obtain ⟨h1, h2, h3, h4⟩ := mechErrStep_le d (s.curve.getD i 0) (.down) s.counters
    rw [(by rw [h.2] : mechErrStep d (s.curve.getD i 0) (.down) s.counters =
      mechErrStep d (s.curve.getD i 0)
        (linkAdvance d.flapU (mechFlapProb (s.curve.getD i 0))
          (fun ns => if 2 < s.curve.getD i 0 ∧ ns = .up then d.cdJiggle else d.cdNormal)
          s.lastState s.cooldown).1 s.counters)] at h1 h2 h3 h4
    exact ⟨h1, h2, h3, by dsimp; omega⟩
  · exact mechErrStep_le d _ _ _

theorem mechStateAt_succ (N : ℕ) (td : ℕ → MechTickDraws) (c0 : List ℚ)
    (i : ℕ) : mechStateAt N td c0 (i + 1) =
      (mechStep N (td i) i (mechStateAt N td c0 i)).2 := rfl

theorem mechState_counters_mono (N : ℕ) (td : ℕ → MechTickDraws)
    (c0 : List ℚ) {i j : ℕ} (h : i ≤ j) :
    (mechStateAt N td c0 i).counters.le (mechStateAt N td c0 j).counters := by
  induction j, h using Nat.le_induction with
  | base => exact counters_le_rfl _
  | succ j _ ih =>
    exact counters_le_comp ih
      (by rw [mechStateAt_succ]; exact mechStep_counters_le N (td j) j _)

theorem thermalErrStep_le (d : ThermalTickDraws) (t : ℚ) (st : LinkState)
    (c : Counters) : c.le (thermalErrStep d t st c) := by
  unfold thermalErrStep
  split_ifs <;> refine ⟨?_, ?_, ?_, ?_⟩ <;> dsimp <;>
    first
    | omega
    | (split_ifs <;> omega)

theorem thermalStep_counters_le (d : ThermalTickDraws) (i : ℕ)
    (curve : List ℚ) (s : ThermalState) :
    s.counters.le (thermalStep d i curve s).2.counters :=
  thermalErrStep_le d _ _ _

theorem thermalStateAt_succ (td : ℕ → ThermalTickDraws) (curve : List ℚ)
    (i : ℕ) : thermalStateAt td curve (i + 1) =
      (thermalStep (td i) i curve (thermalStateAt td curve i)).2 := rfl

theorem thermalState_counters_mono (td : ℕ → ThermalTickDraws)
    (curve : List ℚ) {i j : ℕ} (h : i ≤ j) :
    (thermalStateAt td curve i).counters.le
      (thermalStateAt td curve j).counters := by
  induction j, h using Nat.le_induction with
  | base => exact counters_le_rfl _
  | succ j _ ih =>
    exact counters_le_comp ih
      (by rw [thermalStateAt_succ]; exact thermalStep_counters_le (td j) j _ _)

theorem healthyCounterStep_le (p : ℚ) (d : HealthyTickDraws)
    (st : LinkState) (c : Counters) : c.le (healthyCounterStep p d st c) := by
  unfold healthyCounterStep
  split_ifs <;> refine ⟨?_, ?_, ?_, ?_⟩ <;> dsimp <;>
    first
    | omega
    | (split_ifs <;> omega)

theorem healthyStep_counters_le (p : ℚ) (d : HealthyTickDraws)
    (c : Counters) : c.le (healthyStep p d c).2 := by
  unfold healthyStep
  rcases h : healthyLinkState d.linkU <;> simp [h]
  · exact healthyCounterStep_le p d .up c
  · exact counters_le_rfl c

theorem healthyCountersAt_succ (p : ℚ) (td : ℕ → HealthyTickDraws)
    (i : ℕ) : healthyCountersAt p td (i + 1) =
      (healthyStep p (td i) (healthyCountersAt p td i)).2 := rfl

theorem healthyCounters_mono (p : ℚ) (td : ℕ → HealthyTickDraws)
    {i j : ℕ} (h : i ≤ j) :
    (healthyCountersAt p td i).le (healthyCountersAt p td j) := by
  induction j, h using Nat.le_induction with
  | base => exact counters_le_rfl _
  | succ j _ ih =>
    exact counters_le_comp ih
      (by rw [healthyCountersAt_succ]; exact healthyStep_counters_le p (td j) _)

/-- Either the metric is absent on the row, or it reports exactly the given
cumulative counter value. -/
def emits (o : Option ℕ) (n : ℕ) : Prop := o = none ∨ o = some n

theorem mechRow_emits (N : ℕ) (td : ℕ → MechTickDraws) (c0 : List ℚ)
    (i : ℕ) :
    emits (mechRowAt N td c0 i).fecCorrectable
      (mechStateAt N td c0 (i + 1)).counters.fecCorrectable ∧
    emits (mechRowAt N td c0 i).fecUncorrectable
      (mechStateAt N td c0 (i + 1)).counters.fecUncorrectable ∧
    emits (mechRowAt N td c0 i).crcErrorCount
      (mechStateAt N td c0 (i + 1)).counters.crcErrorCount ∧
    emits (mechRowAt N td c0 i).connectorInsertionCount
      (mechStateAt N td c0 (i + 1)).counters.connectorInsertionCount := by
  rw [mechStateAt_succ]
  unfold mechRowAt mechStep mechEmit
  dsimp only
  split_ifs <;> simp [emits]

theorem thermalRow_emits (td : ℕ → ThermalTickDraws) (curve : List ℚ)
    (i : ℕ) :
    emits (thermalRowAt td curve i).fecCorrectable
      (thermalStateAt td curve (i + 1)).counters.fecCorrectable ∧
    emits (thermalRowAt td curve i).fecUncorrectable
      (thermalStateAt td curve (i + 1)).counters.fecUncorrectable ∧
    emits (thermalRowAt td curve i).crcErrorCount
      (thermalStateAt td curve (i + 1)).counters.crcErrorCount ∧
    emits (thermalRowAt td curve i).connectorInsertionCount
      (thermalStateAt td curve (i + 1)).counters.connectorInsertionCount := by
  rw [thermalStateAt_succ]
  unfold thermalRowAt thermalStep thermalEmit
  dsimp only
  split_ifs <;> simp [emits]

theorem healthyRow_emits (p : ℚ) (td : ℕ → HealthyTickDraws) (i : ℕ) :
    emits (healthyRowAt p td i).fecCorrectable
      (healthyCountersAt p td (i + 1)).fecCorrectable ∧
    emits (healthyRowAt p td i).fecUncorrectable
      (healthyCountersAt p td (i + 1)).fecUncorrectable ∧
    emits (healthyRowAt p td i).crcErrorCount
      (healthyCountersAt p td (i + 1)).crcErrorCount ∧
    emits (healthyRowAt p td i).connectorInsertionCount
      (healthyCountersAt p td (i + 1)).connectorInsertionCount := by
  rw [healthyCountersAt_succ]
  unfold healthyRowAt healthyStep
  rcases h : healthyLinkState (td i).linkU <;> simp [h, emits]

/-- Comparison of a counter metric across two rows: whenever the metric is
emitted on both rows, the later value is at least the earlier one. -/
def emittedLE (f : Row → Option ℕ) (r1 r2 : Row) : Prop :=
  ∀ a b, f r1 = some a → f r2 = some b → a ≤ b

/-- All four cumulative counters compare monotonically across two rows. -/
def rowCountersLE (r1 r2 : Row) : Prop :=
  emittedLE Row.fecCorrectable r1 r2 ∧ emittedLE Row.fecUncorrectable r1 r2 ∧
  emittedLE Row.crcErrorCount r1 r2 ∧ emittedLE Row.connectorInsertionCount r1 r2

theorem emits_le {o1 o2 : Option ℕ} {n1 n2 : ℕ} (h1 : emits o1 n1)
    (h2 : emits o2 n2) (h : n1 ≤ n2) :
    ∀ a b, o1 = some a → o2 = some b → a ≤ b := by
  rcases h1 with h1 | h1 <;> rcases h2 with h2 | h2 <;>
    intro a b ha hb <;> rw [h1] at ha <;> rw [h2] at hb <;>
    simp_all

/-- Claim C1: in every scenario, each of the four cumulative counters
(FEC_Correctable, FEC_Uncorrectable, CRCErrorCount,
ConnectorInsertionCount) is monotonically non-decreasing tick-over-tick:
whenever a counter is emitted at two ticks of the same generated series,
the value at the later tick is at least the value at the earlier tick.
Stated for the mechanical, thermal and healthy generators in turn, over
every random-draw oracle, series length, port and severity curve. -/
theorem claim_c1_counters_monotone :
    (∀ (N : ℕ) (td : ℕ → MechTickDraws) (c0 : List ℚ) (i j : ℕ), i ≤ j →
      rowCountersLE (mechRowAt N td c0 i) (mechRowAt N td c0 j)) ∧
    (∀ (td : ℕ → ThermalTickDraws) (curve : List ℚ) (i j : ℕ), i ≤ j →
      rowCountersLE (thermalRowAt td curve i) (thermalRowAt td curve j)) ∧
    (∀ (p : ℚ) (td : ℕ → HealthyTickDraws) (i j : ℕ), i ≤ j →
      rowCountersLE (healthyRowAt p td i) (healthyRowAt p td j)) := by
  refine ⟨fun N td c0 i j hij => ?_, fun td curve i j hij => ?_,
    fun p td i j hij => ?_⟩
  · obtain ⟨e1, e2, e3, e4⟩ := mechRow_emits N td c0 i
    obtain ⟨f1, f2, f3, f4⟩ := mechRow_emits N td c0 j
    obtain ⟨m1, m2, m3, m4⟩ :=
      mechState_counters_mono N td c0 (Nat.succ_le_succ hij)
    exact ⟨emits_le e1 f1 m1, emits_le e2 f2 m2, emits_le e3 f3 m3,
      emits_le e4 f4 m4⟩
  · obtain ⟨e1, e2, e3, e4⟩ := thermalRow_emits td curve i
    obtain ⟨f1, f2, f3, f4⟩ := thermalRow_emits td curve j
    obtain ⟨m1, m2, m3, m4⟩ :=
      thermalState_counters_mono td curve (Nat.succ_le_succ hij)
    exact ⟨emits_le e1 f1 m1, emits_le e2 f2 m2, emits_le e3 f3 m3,
      emits_le e4 f4 m4⟩
  · obtain ⟨e1, e2, e3, e4⟩ := healthyRow_emits p td i
    obtain ⟨f1, f2, f3, f4⟩ := healthyRow_emits p td j
    obtain ⟨m1, m2, m3, m4⟩ :=
      healthyCounters_mono p td (Nat.succ_le_succ hij)
    exact ⟨emits_le e1 f1 m1, emits_le e2 f2 m2, emits_le e3 f3 m3,
      emits_le e4 f4 m4⟩

/-! ## Cooldown hysteresis (claim C2) -/

theorem linkAdvance_pos (flapU p : ℚ) (cdOf : LinkState → ℕ)
    (last : LinkState) (cd : ℕ) (h : 0 < cd) :
    linkAdvance flapU p cdOf last cd = (last, cd - 1) := by
  unfold linkAdvance
  rw [if_pos h]

theorem mech_lastState_eq_row (N : ℕ) (td : ℕ → MechTickDraws)
    (c0 : List ℚ) (i : ℕ) :
    (mechStateAt N td c0 (i + 1)).lastState =
      (mechRowAt N td c0 i).linkState := rfl

theorem thermal_lastState_eq_row (td : ℕ → ThermalTickDraws)
    (curve : List ℚ) (i : ℕ) :
    (thermalStateAt td curve (i + 1)).lastState =
      (thermalRowAt td curve i).linkState := rfl

theorem mechStep_cooldown_pos (N : ℕ) (d : MechTickDraws) (i : ℕ)
    (s : MechState) (h : 0 < s.cooldown) :
    (mechStep N d i s).1.linkState = s.lastState ∧
    (mechStep N d i s).2.cooldown = s.cooldown - 1 := by
  unfold mechStep
  dsimp only
  rw [linkAdvance_pos _ _ _ _ _ h]
  exact ⟨rfl, rfl⟩

theorem thermalStep_cooldown_pos (d : ThermalTickDraws) (i : ℕ)
    (curve : List ℚ) (s : ThermalState) (h : 0 < s.cooldown) :
    (thermalStep d i curve s).1.linkState = s.lastState ∧
    (thermalStep d i curve s).2.cooldown = s.cooldown - 1 := by
  unfold thermalStep
  dsimp only
  rw [linkAdvance_pos _ _ _ _ _ h]
  exact ⟨rfl, rfl⟩

/-- Claim C2: in the mechanical and thermal generators (the two scenarios
with a cooldown counter), whenever the cooldown is positive when a tick
i + 1 is processed, the link state emitted at that tick equals the link
state emitted at the previous tick, and the cooldown is decremented by
exactly one on that tick. -/
theorem claim_c2_cooldown_holds_state :
    (∀ (N : ℕ) (td : ℕ → MechTickDraws) (c0 : List ℚ) (i : ℕ),
      0 < (mechStateAt N td c0 (i + 1)).cooldown →
      (mechRowAt N td c0 (i + 1)).linkState = (mechRowAt N td c0 i).linkState ∧
      (mechStateAt N td c0 (i + 2)).cooldown =
        (mechStateAt N td c0 (i + 1)).cooldown - 1) ∧
    (∀ (td : ℕ → ThermalTickDraws) (curve : List ℚ) (i : ℕ),
      0 < (thermalStateAt td curve (i + 1)).cooldown →
      (thermalRowAt td curve (i + 1)).linkState =
        (thermalRowAt td curve i).linkState ∧
      (thermalStateAt td curve (i + 2)).cooldown =
        (thermalStateAt td curve (i + 1)).cooldown - 1) := by
  constructor
  · intro N td c0 i h
    obtain ⟨h1, h2⟩ :=
      mechStep_cooldown_pos N (td (i + 1)) (i + 1) (mechStateAt N td c0 (i + 1)) h
    exact ⟨by rw [mechRowAt, h1, mech_lastState_eq_row],
      by rw [mechStateAt_succ]; exact h2⟩
  · intro td curve i h
    obtain ⟨h1, h2⟩ :=
      thermalStep_cooldown_pos (td (i + 1)) (i + 1) curve
        (thermalStateAt td curve (i + 1)) h
    exact ⟨by rw [thermalRowAt, h1, thermal_lastState_eq_row],
      by rw [thermalStateAt_succ]; exact h2⟩

/-! ## Flap probabilities (claim C4) -/

theorem flipLS_ne (st : LinkState) : flipLS st ≠ st := by
  cases st <;> simp [flipLS]

theorem mechFlapProb_mono : Monotone mechFlapProb := by
  intro a b hab
  unfold mechFlapProb
  split_ifs <;> linarith

theorem thermalFlapProb_mono : Monotone thermalFlapProb := by
  intro a b hab
  unfold thermalFlapProb
  split_ifs <;> linarith

theorem linkAdvance_zero_flip (flapU p : ℚ) (cdOf : LinkState → ℕ)
    (last : LinkState) :
    (linkAdvance flapU p cdOf last 0).1 ≠ last ↔ flapU < p := by
  unfold linkAdvance
  rw [if_neg (by omega)]
  split_ifs with h
  · simpa [flipLS_ne] using h
  · simp [h]

/-- Claim C4: with cooldown 0, the link-state decision is a Bernoulli trial
(the state flips exactly when the uniform draw is below the flap
probability), and the flap probability is the piecewise-constant,
non-decreasing step function of the severity given in the source: four
mechanical tiers 0.1, 2, 8 and 25 percent, three thermal tiers 0.1, 5 and
20 percent, while the healthy generator decides each tick independently
with a constant 0.5 percent chance of Down (the state is Down exactly when
the uniform draw is at least 0.995, an event of probability
1 - 0.995 = 0.005) regardless of any severity. -/
theorem claim_c4_flap_probability :
    (∀ deg : ℚ, deg < 1 → mechFlapProb deg = 0.001) ∧
    (∀ deg : ℚ, 1 ≤ deg → deg < 2 → mechFlapProb deg = 0.02) ∧
    (∀ deg : ℚ, 2 ≤ deg → deg < 3 → mechFlapProb deg = 0.08) ∧
    (∀ deg : ℚ, 3 ≤ deg → mechFlapProb deg = 0.25) ∧
    Monotone mechFlapProb ∧
    (∀ t : ℚ, t < 45 → thermalFlapProb t = 0.001) ∧
    (∀ t : ℚ, 45 ≤ t → t < 50 → thermalFlapProb t = 0.05) ∧
    (∀ t : ℚ, 50 ≤ t → thermalFlapProb t = 0.20) ∧
    Monotone thermalFlapProb ∧
    (∀ (N : ℕ) (d : MechTickDraws) (i : ℕ) (s : MechState),
      s.cooldown = 0 →
      ((mechStep N d i s).1.linkState ≠ s.lastState ↔
        d.flapU < mechFlapProb (s.curve.getD i 0))) ∧
    (∀ (d : ThermalTickDraws) (i : ℕ) (curve : List ℚ) (s : ThermalState),
      s.cooldown = 0 →
      ((thermalStep d i curve s).1.linkState ≠ s.lastState ↔
        d.flapU < thermalFlapProb (curve.getD i 0))) ∧
    (∀ (p : ℚ) (d : HealthyTickDraws) (c : Counters),
      (healthyStep p d c).1.linkState = healthyLinkState d.linkU) ∧
    (∀ u : ℚ, healthyLinkState u = .down ↔ 0.995 ≤ u) ∧
    ((1 : ℚ) - 0.995 = 0.005) := by
  refine ⟨?_, ?_, ?_, ?_, mechFlapProb_mono, ?_, ?_, ?_, thermalFlapProb_mono,
    ?_, ?_, ?_, ?_, by norm_num⟩
  · intro deg h; unfold mechFlapProb; split_ifs <;> first | rfl | linarith
  · intro deg h1 h2; unfold mechFlapProb; split_ifs <;> first | rfl | linarith
  · intro deg h1 h2; unfold mechFlapProb; split_ifs <;> first | rfl | linarith
  · intro deg h; unfold mechFlapProb; split_ifs <;> first | rfl | linarith
  · intro t h; unfold thermalFlapProb; split_ifs <;> first | rfl | linarith
  · intro t h1 h2; unfold thermalFlapProb; split_ifs <;> first | rfl | linarith
  · intro t h; unfold thermalFlapProb; split_ifs <;> first | rfl | linarith
  · intro N d i s h
    unfold mechStep
    dsimp only
    rw [h]
    exact linkAdvance_zero_flip _ _ _ _
  · intro d i curve s h
    unfold thermalStep
    dsimp only
    rw [h]
    exact linkAdvance_zero_flip _ _ _ _
  · intro p d c
    unfold healthyStep
    rcases h : healthyLinkState d.linkU <;> simp [h]
  · intro u
    unfold healthyLinkState
    split_ifs with h
    · constructor
      · intro hc; exact absurd hc (by simp)
      · intro hc; linarith
    · simp
      linarith

/-! ## Volatile metrics in the thermal scenario (claim C3, amended) -/

theorem thermalEmit_fields (d : ThermalTickDraws) (t : ℚ) (st : LinkState)
    (c1 : Counters) :
    (thermalEmit d t st c1).temperature.isSome ∧
    (thermalEmit d t st c1).fanSpeed.isSome ∧
    (thermalEmit d t st c1).humidity.isSome ∧
    (thermalEmit d t st c1).airflow.isSome ∧
    (thermalEmit d t st c1).ambientTemperature.isSome ∧
    (thermalEmit d t st c1).cableLengthEstimate = some 10 ∧
    (thermalEmit d t st c1).connectorInsertionCount.isSome ∧
    ((thermalEmit d t st c1).snr = none ↔ st = .down) ∧
    ((thermalEmit d t st c1).fecCorrectable = none ↔ st = .down) ∧
    ((thermalEmit d t st c1).fecUncorrectable = none ↔ st = .down) ∧
    ((thermalEmit d t st c1).crcErrorCount = none ↔ st = .down) ∧
    ((thermalEmit d t st c1).voltage = none ↔ st = .down) ∧
    ((thermalEmit d t st c1).opticalRxPower = none ↔ st = .down) ∧
    ((thermalEmit d t st c1).opticalTxPower = none ↔ st = .down) ∧
    ((thermalEmit d t st c1).linkLatency = none ↔ st = .down) := by
  cases st <;> simp [thermalEmit]

/-- Claim C3, amended: in the thermal scenario, Temperature is present on
every emitted record whether the link is up or down, and so are FanSpeed,
Humidity, Airflow, AmbientTemperature, ConnectorInsertionCount and also
CableLengthEstimate (always the constant 10.0, contrary to the original
claim, which listed CableLengthEstimate among the volatile metrics); the
remaining eight metrics (SNR, FEC_Correctable, FEC_Uncorrectable,
CRCErrorCount, Voltage, OpticalRxPower, OpticalTxPower, LinkLatency) are
set to the absent sentinel exactly on those records whose link state is
down. -/
theorem claim_c3_thermal_volatile_fields (td : ℕ → ThermalTickDraws)
    (curve : List ℚ) (i : ℕ) :
    (thermalRowAt td curve i).temperature.isSome ∧
    (thermalRowAt td curve i).fanSpeed.isSome ∧
    (thermalRowAt td curve i).humidity.isSome ∧
    (thermalRowAt td curve i).airflow.isSome ∧
    (thermalRowAt td curve i).ambientTemperature.isSome ∧
    (thermalRowAt td curve i).cableLengthEstimate = some 10 ∧
    (thermalRowAt td curve i).connectorInsertionCount.isSome ∧
    ((thermalRowAt td curve i).snr = none ↔
      (thermalRowAt td curve i).linkState = .down) ∧
    ((thermalRowAt td curve i).fecCorrectable = none ↔
      (thermalRowAt td curve i).linkState = .down) ∧
    ((thermalRowAt td curve i).fecUncorrectable = none ↔
      (thermalRowAt td curve i).linkState = .down) ∧
    ((thermalRowAt td curve i).crcErrorCount = none ↔
      (thermalRowAt td curve i).linkState = .down) ∧
    ((thermalRowAt td curve i).voltage = none ↔
      (thermalRowAt td curve i).linkState = .down) ∧
    ((thermalRowAt td curve i).opticalRxPower = none ↔
      (thermalRowAt td curve i).linkState = .down) ∧
    ((thermalRowAt td curve i).opticalTxPower = none ↔
      (thermalRowAt td curve i).linkState = .down) ∧
    ((thermalRowAt td curve i).linkLatency = none ↔
      (thermalRowAt td curve i).linkState = .down) := by
  have h : (thermalRowAt td curve i).linkState =
      (linkAdvance (td i).flapU (thermalFlapProb (curve.getD i 0))
        (fun _ => (td i).cd) (thermalStateAt td curve i).lastState
        (thermalStateAt td curve i).cooldown).1 := rfl
  rw [h]
  exact thermalEmit_fields (td i) (curve.getD i 0) _ _

/-! ## Down-record shape per scenario (claim C10) -/

/-- Claim C10: in the healthy scenario a down tick emits a record with all
fifteen metric fields set to the absent sentinel (only timestamp, port and
linkState are populated, and the first two are structural); by contrast the
thermal and mechanical generators keep Temperature, FanSpeed, Humidity,
Airflow, AmbientTemperature, CableLengthEstimate and the
ConnectorInsertionCount emission populated on every record, down ticks
included. -/
theorem claim_c10_down_record_shape :
    (∀ (p : ℚ) (td : ℕ → HealthyTickDraws) (i : ℕ),
      (healthyRowAt p td i).linkState = .down →
      healthyRowAt p td i = ⟨.down, none, none, none, none, none, none,
        none, none, none, none, none, none, none, none, none⟩) ∧
    (∀ (td : ℕ → ThermalTickDraws) (curve : List ℚ) (i : ℕ),
      (thermalRowAt td curve i).temperature.isSome ∧
      (thermalRowAt td curve i).fanSpeed.isSome ∧
      (thermalRowAt td curve i).humidity.isSome ∧
      (thermalRowAt td curve i).airflow.isSome ∧
      (thermalRowAt td curve i).ambientTemperature.isSome ∧
      (thermalRowAt td curve i).cableLengthEstimate.isSome ∧
      (thermalRowAt td curve i).connectorInsertionCount.isSome) ∧
    (∀ (N : ℕ) (td : ℕ → MechTickDraws) (c0 : List ℚ) (i : ℕ),
      (mechRowAt N td c0 i).temperature.isSome ∧
      (mechRowAt N td c0 i).fanSpeed.isSome ∧
      (mechRowAt N td c0 i).humidity.isSome ∧
      (mechRowAt N td c0 i).airflow.isSome ∧
      (mechRowAt N td c0 i).ambientTemperature.isSome ∧
      (mechRowAt N td c0 i).cableLengthEstimate.isSome ∧
      (mechRowAt N td c0 i).connectorInsertionCount.isSome) := by
  refine ⟨fun p td i hdown => ?_, fun td curve i => ?_, fun N td c0 i => ?_⟩
  · unfold healthyRowAt healthyStep at hdown ⊢
    rcases h : healthyLinkState (td i).linkU
    · rw [h] at hdown
      simp at hdown
    · rfl
  · unfold thermalRowAt thermalStep thermalEmit
    dsimp only
    simp
  · unfold mechRowAt mechStep mechEmit
    dsimp only
    split_ifs <;> simp

/-! ## Mechanical phases and ramps (claim C5) -/

/-- Claim C5: the four mechanical phase lengths (Normal and Early
int(0.2 N), Moderate int(0.3 N), Severe the remainder) always sum to
exactly the total tick count, a successfully built mechanical severity
curve has length exactly N, and the deterministic ramp components of the
Early and Moderate phases (before Gaussian jitter) are non-decreasing
within their phases. -/
theorem claim_c5_mech_phases :
    (∀ N : ℕ, (mechPhases N).1 + (mechPhases N).2.1 + (mechPhases N).2.2.1 +
      (mechPhases N).2.2.2 = N) ∧
    (∀ (d : MechCurveDraws) (N : ℕ) (c : List ℚ), mechCurve d N = some c →
      c.length = N) ∧
    (∀ (e i j : ℕ), i ≤ j → j < e → mechEarlyRamp e i ≤ mechEarlyRamp e j) ∧
    (∀ (s : ℚ) (m i j : ℕ), i ≤ j → j < m →
      mechModRamp s m i ≤ mechModRamp s m j) := by
  refine ⟨fun N => ?_, fun d N c hc => ?_, fun e i j hij hje => ?_,
    fun s m i j hij hjm => ?_⟩
  · unfold mechPhases
    dsimp only
    omega
  · unfold mechCurve at hc
    dsimp only at hc
    split at hc
    · exact absurd hc (by simp)
    · split at hc
      · exact absurd hc (by simp)
      · rw [Option.some_inj] at hc
        subst hc
        simp only [List.length_append, List.length_map, List.length_range,
          List.length_replicate]
        unfold mechPhases
        dsimp only
        omega
  · have he : (0 : ℚ) < (e : ℚ) := by exact_mod_cast Nat.lt_of_le_of_lt (Nat.zero_le j) hje
    have hij2 : (i : ℚ) ≤ (j : ℚ) := by exact_mod_cast hij
    unfold mechEarlyRamp
    exact mul_le_mul_of_nonneg_right
      ((div_le_div_iff_of_pos_right he).mpr hij2) (by norm_num)
  · have hm : (0 : ℚ) < (m : ℚ) := by exact_mod_cast Nat.lt_of_le_of_lt (Nat.zero_le j) hjm
    have hij2 : (i : ℚ) ≤ (j : ℚ) := by exact_mod_cast hij
    unfold mechModRamp
    exact add_le_add_left (mul_le_mul_of_nonneg_right
      ((div_le_div_iff_of_pos_right hm).mpr hij2) (by norm_num)) s

/-! ## Connector reseat (claim C6) -/

theorem mechErrStep_conn (d : MechTickDraws) (deg : ℚ) (st : LinkState)
    (c : Counters) :
    (mechErrStep d deg st c).connectorInsertionCount =
      c.connectorInsertionCount := by
  unfold mechErrStep
  split_ifs <;> rfl

theorem mapFrom_length (f : ℕ → ℚ → ℚ) (st : ℕ) (c : List ℚ) :
    (mapFrom f st c).length = c.length := by
  induction c generalizing st <;> simp [mapFrom, *]

theorem mapFrom_getElem? (f : ℕ → ℚ → ℚ) (xs : List ℚ) :
    ∀ (st j : ℕ), (mapFrom f st xs)[j]? = (xs[j]?).map (f (st + j)) := by
  induction xs with
  | nil => intro st j; simp [mapFrom]
  | cons x xs ih =>
    intro st j
    cases j with
    | zero => simp [mapFrom]
    | succ j =>
      simp only [mapFrom, List.getElem?_cons_succ]
      rw [ih (st + 1) j]
      have harith : st + 1 + j = st + (j + 1) := by omega
      rw [harith]

theorem reseatCurve_in_window (xs : List ℚ) (i j : ℕ) (h1 : i ≤ j)
    (h2 : j < i + 30) :
    (reseatCurve xs i)[j]? = (xs[j]?).map (fun x => max 0 (x - 2.0)) := by
  unfold reseatCurve
  rw [mapFrom_getElem?]
  simp [Nat.zero_add, h1, h2]

theorem reseatCurve_outside_window (xs : List ℚ) (i j : ℕ)
    (h : j < i ∨ i + 30 ≤ j) :
    (reseatCurve xs i)[j]? = xs[j]? := by
  unfold reseatCurve
  rw [mapFrom_getElem?]
  have hn : ¬(i ≤ j ∧ j < i + 30) := by omega
  simp only [Nat.zero_add, hn, if_false]
  cases xs[j]? <;> rfl

/-- Claim C6: in the mechanical scenario, exactly at tick
int(0.8 * totalTicks) and only when the link state emitted at that tick is
Down, the one-shot connector-reseat effect fires: ConnectorInsertionCount
grows by one (and the row reports the incremented value), and the severity
curve entries with indices in the 30-tick window starting at that tick are
replaced by max(0, old - 2.0) while entries outside the window are
unchanged; at any other tick, or when the link is up, the connector counter
and the curve are untouched. The healthy generator has no reseat: its
connector counter changes only through the per-tick insertion draw,
independent of any tick index or severity. -/
theorem claim_c6_connector_reseat :
    (∀ (N : ℕ) (d : MechTickDraws) (i : ℕ) (s : MechState),
      (i = N * 8 / 10 ∧ (mechStep N d i s).1.linkState = .down →
        (mechStep N d i s).2.counters.connectorInsertionCount =
          s.counters.connectorInsertionCount + 1 ∧
        (mechStep N d i s).2.curve = reseatCurve s.curve i ∧
        (mechStep N d i s).1.connectorInsertionCount =
          some (s.counters.connectorInsertionCount + 1)) ∧
      (¬(i = N * 8 / 10 ∧ (mechStep N d i s).1.linkState = .down) →
        (mechStep N d i s).2.counters.connectorInsertionCount =
          s.counters.connectorInsertionCount ∧
        (mechStep N d i s).2.curve = s.curve)) ∧
    (∀ (xs : List ℚ) (i j : ℕ), i ≤ j → j < i + 30 →
      (reseatCurve xs i)[j]? = (xs[j]?).map (fun x => max 0 (x - 2.0))) ∧
    (∀ (xs : List ℚ) (i j : ℕ), j < i ∨ i + 30 ≤ j →
      (reseatCurve xs i)[j]? = xs[j]?) ∧
    (∀ (p : ℚ) (d : HealthyTickDraws) (c : Counters),
      (healthyStep p d c).2.connectorInsertionCount =
        if healthyLinkState d.linkU = .up ∧ d.connU < 0.0005 then
          c.connectorInsertionCount + 1
        else c.connectorInsertionCount) := by
  refine ⟨fun N d i s => ?_, reseatCurve_in_window, reseatCurve_outside_window,
    fun p d c => ?_⟩
  · unfold mechStep mechEmit
    dsimp only
    constructor
    · intro h
      rw [if_pos h, if_pos h]
      exact ⟨by dsimp only; rw [mechErrStep_conn], rfl,
        by dsimp only; rw [mechErrStep_conn]⟩
    · intro h
      rw [if_neg h, if_neg h]
      exact ⟨mechErrStep_conn d _ _ _, rfl⟩
  · unfold healthyStep healthyCounterStep
    rcases h : healthyLinkState d.linkU <;> simp [h]

/-! ## Series-build failure conditions (claim C7) -/

theorem thermalCurve_eq_none (cd : ThermalCurveDraws) (N : ℕ) :
    thermalCurve cd N = none ↔ N ≤ 3 := by
  unfold thermalCurve
  dsimp only
  split
  · next heq =>
    rw [List.getLast?_eq_none_iff, List.map_eq_nil_iff, List.range_eq_nil] at heq
    simp only [true_iff]
    omega
  · next s1 heq =>
    simp only [reduceCtorEq, false_iff]
    intro hN
    rw [show N * 3 / 10 = 0 by omega] at heq
    simp at heq

theorem mechCurve_eq_none (cd : MechCurveDraws) (N : ℕ) :
    mechCurve cd N = none ↔ N ≤ 4 := by
  unfold mechCurve mechPhases
  dsimp only
  split
  · next heq =>
    rw [List.getLast?_eq_none_iff, List.append_eq_nil] at heq
    obtain ⟨h1, h2⟩ := heq
    rw [List.map_eq_nil_iff, List.range_eq_nil] at h2
    simp only [true_iff]
    omega
  · next s1 heq =>
    split
    · next heq2 =>
      rw [List.getLast?_eq_none_iff, List.append_eq_nil] at heq2
      rw [heq2.1] at heq
      simp at heq
    · next s2 heq2 =>
      simp only [reduceCtorEq, false_iff]
      intro hN
      rw [show N * 2 / 10 = 0 by omega] at heq
      simp at heq

theorem healthyRowsAll_eq_nil (P N : ℕ) (td : ℕ → ℕ → HealthyTickDraws) :
    healthyRowsAll P N td = [] ↔ P = 0 ∨ N = 0 := by
  unfold healthyRowsAll
  rw [List.flatten_eq_nil_iff]
  constructor
  · intro h
    by_contra hc
    push_neg at hc
    have hmem : (List.range N).map
        (fun i => healthyRowAt ((0 : ℚ) + 1) (td (0 + 1)) i) ∈
        (List.range P).map (fun (q : ℕ) =>
          (List.range N).map (fun i => healthyRowAt ((q : ℚ) + 1) (td (q + 1)) i)) := by
      exact List.mem_map_of_mem _ (List.mem_range.mpr (Nat.pos_of_ne_zero hc.1))
    have := h _ hmem
    rw [List.map_eq_nil_iff, List.range_eq_nil] at this
    exact hc.2 this
  · intro h l hl
    rcases h with h | h <;> subst h
    · simp at hl
    · simp at hl
      exact hl.2

/-- Claim C7, amended: series construction does fail fast at build time and
the tick loop itself is total (it never fails on data content), but the
failures are uncaught container errors rather than descriptive
configuration errors, and they do not coincide with non-positive duration:
the thermal builder fails exactly when int(0.3 N) = 0, that is for every
N at most 3 (including the positive durations 1, 2, 3, via IndexError on
temp_progression[-1]); the mechanical builder fails exactly when
int(0.2 N) = 0, that is for N at most 4; the healthy builder fails exactly
when the row list is empty (no ports or no ticks, via KeyError on the
timestamp column of an empty DataFrame). There is no scenario argument at
all: the scenario is selected by calling one of three functions, so no
unknown-scenario error exists. -/
theorem claim_c7_amended_failure_conditions :
    (∀ (N : ℕ) (cd : ThermalCurveDraws) (td : ℕ → ThermalTickDraws),
      generate_network_telemetry_with_flapping N cd td = none ↔ N ≤ 3) ∧
    (∀ (N : ℕ) (cd : MechCurveDraws) (td : ℕ → MechTickDraws),
      generate_network_telemetry_with_mechanical_issues N cd td = none ↔ N ≤ 4) ∧
    (∀ (P N : ℕ) (td : ℕ → ℕ → HealthyTickDraws),
      generate_network_telemetry P N td = none ↔ P = 0 ∨ N = 0) := by
  refine ⟨fun N cd td => ?_, fun N cd td => ?_, fun P N td => ?_⟩
  · unfold generate_network_telemetry_with_flapping
    rw [Option.map_eq_none']
    exact thermalCurve_eq_none cd N
  · unfold generate_network_telemetry_with_mechanical_issues
    rw [Option.map_eq_none']
    exact mechCurve_eq_none cd N
  · unfold generate_network_telemetry
    dsimp only
    split_ifs with h
    · rw [List.isEmpty_iff, healthyRowsAll_eq_nil] at h
      simp [h]
    · rw [List.isEmpty_iff, healthyRowsAll_eq_nil] at h
      simp [h]

/-- Zero draws for the thermal curve builder, used by concrete runs. -/
def tcdZero : ThermalCurveDraws := ⟨fun _ => 0, fun _ => 0, fun _ => 0⟩

/-- Quiet thermal tick draws: uniform draws 1 (so nothing fires), all
noise zero. -/
def ttdQuiet : ThermalTickDraws :=
  ⟨1, 0, 0, 1, 0, 1, 0, 1, 0, 0, 0, 0, 0, 0, 0, 0, 0⟩

/-- Claim C7, counterexample to the original claim: a duration of 3 ticks
is a positive duration, yet the thermal series build fails (the severity
curve is empty and temp_progression[-1] raises), so configuration errors
with non-positive duration are not the only build-time failures. -/
theorem claim_c7_counterexample :
    (0 : ℕ) < 3 ∧
    generate_network_telemetry_with_flapping 3 tcdZero (fun _ => ttdQuiet) =
      none := by
  exact ⟨by norm_num, rfl⟩

/-! ## Humidity range (claim C8) -/

theorem round3_nat_lit (n : ℕ) : round3 ((n : ℚ)) = (n : ℚ) := by
  have h := round3_intCast (n : ℤ)
  push_cast at h
  exact h

/-- Claim C8, amended: only the healthy generator clamps Humidity to
[30, 70] before rounding, so its emitted humidity always lies in that
interval; the thermal and mechanical generators emit
round3(45 + 5 * noise) with no clamp, so their humidity is unbounded in
the noise draw. -/
theorem claim_c8_amended_humidity :
    (∀ (p : ℚ) (td : ℕ → HealthyTickDraws) (i : ℕ) (a : ℚ),
      (healthyRowAt p td i).humidity = some a → 30 ≤ a ∧ a ≤ 70) ∧
    (∀ (td : ℕ → ThermalTickDraws) (curve : List ℚ) (i : ℕ),
      (thermalRowAt td curve i).humidity =
        some (round3 (45 + 5 * (td i).humZ))) ∧
    (∀ (N : ℕ) (td : ℕ → MechTickDraws) (c0 : List ℚ) (i : ℕ),
      (mechRowAt N td c0 i).humidity =
        some (round3 (45 + 5 * (td i).humZ))) := by
  refine ⟨fun p td i a ha => ?_, fun td curve i => rfl, fun N td c0 i => rfl⟩
  unfold healthyRowAt healthyStep at ha
  rcases h : healthyLinkState (td i).linkU
  · rw [h] at ha
    dsimp only at ha
    rw [Option.some_inj] at ha
    subst ha
    have h30 : round3 ((30 : ℚ)) = 30 := by exact_mod_cast round3_nat_lit 30
    have h70 : round3 ((70 : ℚ)) = 70 := by exact_mod_cast round3_nat_lit 70
    constructor
    · rw [← h30]
      exact round3_mono (le_min (le_max_right _ _) (by norm_num))
    · rw [← h70]
      exact round3_mono (min_le_right _ _)
  · rw [h] at ha
    simp at ha

/-- Thermal tick draws with a humidity noise draw of 6 standard units and
everything else quiet. -/
def ttdHum : ThermalTickDraws :=
  ⟨1, 0, 0, 1, 0, 1, 0, 1, 0, 0, 0, 6, 0, 0, 0, 0, 0⟩

theorem thermalCurve_ten :
    thermalCurve tcdZero 10 =
      some [35, 35, 35, 35, 125 / 3, 145 / 3, 55, 55, 55, 55] := by
  unfold thermalCurve tcdZero
  norm_num [List.range_succ, List.getLast?]

/-- Record 0 of the concrete 10-tick thermal series driven by ttdHum. -/
def c8row : Option Row :=
  ((generate_network_telemetry_with_flapping 10 tcdZero
    (fun _ => ttdHum)).getD [])[0]?

theorem c8row_eq :
    c8row = some (thermalRowAt (fun _ => ttdHum)
      [35, 35, 35, 35, 125 / 3, 145 / 3, 55, 55, 55, 55] 0) := by
  unfold c8row generate_network_telemetry_with_flapping
  rw [thermalCurve_ten]
  simp

/-- Claim C8, counterexample to the original claim: on the generated
10-tick thermal series with a humidity noise draw of six standard units,
the record at tick 0 has the link up and Humidity 75, outside [30, 70]:
the thermal generator does not clamp humidity at emission time. -/
theorem claim_c8_counterexample :
    c8row.map Row.linkState = some .up ∧
    c8row.map Row.humidity = some (some 75) ∧
    ¬((75 : ℚ) ≤ 70) := by
  have h75 : round3 ((75 : ℚ)) = 75 := by exact_mod_cast round3_nat_lit 75
  refine ⟨?_, ?_, by norm_num⟩ <;>
    rw [c8row_eq] <;>
    unfold thermalRowAt thermalStateAt thermalStep thermalEmit linkAdvance
      thermalFlapProb ttdHum <;>
    norm_num [List.getD, h75]

/-! ## Rounding at emission time (claim C9) -/

/-- The emitted optional metric value, when present, equals its own
rounding to three decimals. -/
def roundedOpt (o : Option ℚ) : Prop := ∀ v, o = some v → round3 v = v

theorem roundedOpt_none : roundedOpt none := by
  intro v hv
  exact Option.noConfusion hv

theorem roundedOpt_some (q : ℚ) : roundedOpt (some (round3 q)) := by
  intro v hv
  rw [Option.some_inj] at hv
  subst hv
  exact round3_idem q

theorem roundedOpt_lit10 : roundedOpt (some (10 : ℚ)) := by
  intro v hv
  rw [Option.some_inj] at hv
  subst hv
  exact_mod_cast round3_nat_lit 10

/-- Claim C9, amended: in the healthy and thermal generators every emitted
floating metric equals its own rounding to three decimals, and in the
mechanical generator the same holds for every floating metric except SNR
and LinkLatency, which are rounded only while the degradation at the tick
is at most 3.0 (above 3.0 the source adds an unrounded jitter term after
rounding, lines 157-158 and 231-232). -/
theorem claim_c9_amended_rounding :
    (∀ (p : ℚ) (td : ℕ → HealthyTickDraws) (i : ℕ),
      roundedOpt (healthyRowAt p td i).snr ∧
      roundedOpt (healthyRowAt p td i).temperature ∧
      roundedOpt (healthyRowAt p td i).voltage ∧
      roundedOpt (healthyRowAt p td i).fanSpeed ∧
      roundedOpt (healthyRowAt p td i).humidity ∧
      roundedOpt (healthyRowAt p td i).airflow ∧
      roundedOpt (healthyRowAt p td i).ambientTemperature ∧
      roundedOpt (healthyRowAt p td i).opticalRxPower ∧
      roundedOpt (healthyRowAt p td i).opticalTxPower ∧
      roundedOpt (healthyRowAt p td i).linkLatency ∧
      roundedOpt (healthyRowAt p td i).cableLengthEstimate) ∧
    (∀ (td : ℕ → ThermalTickDraws) (curve : List ℚ) (i : ℕ),
      roundedOpt (thermalRowAt td curve i).snr ∧
      roundedOpt (thermalRowAt td curve i).temperature ∧
      roundedOpt (thermalRowAt td curve i).voltage ∧
      roundedOpt (thermalRowAt td curve i).fanSpeed ∧
      roundedOpt (thermalRowAt td curve i).humidity ∧
      roundedOpt (thermalRowAt td curve i).airflow ∧
      roundedOpt (thermalRowAt td curve i).ambientTemperature ∧
      roundedOpt (thermalRowAt td curve i).opticalRxPower ∧
      roundedOpt (thermalRowAt td curve i).opticalTxPower ∧
      roundedOpt (thermalRowAt td curve i).linkLatency ∧
      roundedOpt (thermalRowAt td curve i).cableLengthEstimate) ∧
    (∀ (N : ℕ) (td : ℕ → MechTickDraws) (c0 : List ℚ) (i : ℕ),
      roundedOpt (mechRowAt N td c0 i).temperature ∧
      roundedOpt (mechRowAt N td c0 i).voltage ∧
      roundedOpt (mechRowAt N td c0 i).fanSpeed ∧
      roundedOpt (mechRowAt N td c0 i).humidity ∧
      roundedOpt (mechRowAt N td c0 i).airflow ∧
      roundedOpt (mechRowAt N td c0 i).ambientTemperature ∧
      roundedOpt (mechRowAt N td c0 i).opticalRxPower ∧
      roundedOpt (mechRowAt N td c0 i).opticalTxPower ∧
      roundedOpt (mechRowAt N td c0 i).cableLengthEstimate ∧
      ((mechStateAt N td c0 i).curve.getD i 0 ≤ 3 →
        roundedOpt (mechRowAt N td c0 i).snr ∧
        roundedOpt (mechRowAt N td c0 i).linkLatency)) := by
  refine ⟨fun p td i => ?_, fun td curve i => ?_, fun N td c0 i => ?_⟩
  · unfold healthyRowAt healthyStep
    rcases h : healthyLinkState (td i).linkU
    · exact ⟨roundedOpt_some _, roundedOpt_some _, roundedOpt_some _,
        roundedOpt_some _, roundedOpt_some _, roundedOpt_some _,
        roundedOpt_some _, roundedOpt_some _, roundedOpt_some _,
        roundedOpt_some _, roundedOpt_some _⟩
    · exact ⟨roundedOpt_none, roundedOpt_none, roundedOpt_none,
        roundedOpt_none, roundedOpt_none, roundedOpt_none, roundedOpt_none,
        roundedOpt_none, roundedOpt_none, roundedOpt_none, roundedOpt_none⟩
  · unfold thermalRowAt thermalStep thermalEmit
    dsimp only
    refine ⟨?_, roundedOpt_some _, ?_, roundedOpt_some _, roundedOpt_some _,
      roundedOpt_some _, roundedOpt_some _, ?_, ?_, ?_, roundedOpt_lit10⟩ <;>
      split_ifs <;> first | exact roundedOpt_some _ | exact roundedOpt_none
  · unfold mechRowAt mechStep mechEmit
    dsimp only
    refine ⟨roundedOpt_some _, ?_, roundedOpt_some _, roundedOpt_some _,
      roundedOpt_some _, roundedOpt_some _, ?_, ?_, ?_, fun hdeg => ⟨?_, ?_⟩⟩ <;>
      split_ifs <;>
      first
      | exact roundedOpt_some _
      | exact roundedOpt_none
      | exact roundedOpt_lit10
      | (exfalso; linarith)

theorem mechFlapProb_le_quarter (deg : ℚ) : mechFlapProb deg ≤ 1 / 4 := by
  unfold mechFlapProb
  split_ifs <;> norm_num

theorem linkAdvance_quiet (p : ℚ) (hp : p ≤ 1 / 4) (cdOf : LinkState → ℕ)
    (last : LinkState) : linkAdvance 1 p cdOf last 0 = (last, 0) := by
  unfold linkAdvance
  rw [if_neg (by omega), if_neg (by linarith)]

/-- Quiet mechanical tick draws: flap and counter uniform draws 1 (nothing
fires), all noise zero except a small SNR jitter draw of 1/20000. -/
def mtdQuiet : MechTickDraws :=
  ⟨1, 0, 0, 0, 1 / 20000, 1, 0, 1, 0, 1, 0, 0, 0, 0, 0, 0, 0, 0, 0, 0, 0, 0,
    0, 0⟩

/-- Zero draws for the mechanical curve builder (randint draw pinned at 5). -/
def mcdZero : MechCurveDraws := ⟨fun _ => 0, fun _ => 5, fun _ => 0, fun _ => 0⟩

theorem mechErrStep_quiet (deg : ℚ) (st : LinkState) (c : Counters)
    (hd : deg ≤ 4) : mechErrStep mtdQuiet deg st c = c := by
  have hm : max 0 deg ≤ 4 := max_le (by norm_num) hd
  rcases st
  · unfold mechErrStep mtdQuiet
    rw [if_pos rfl]
    dsimp only
    rw [if_neg (by intro h; linarith), if_neg (by rintro ⟨-, h⟩; linarith),
      if_neg (by intro h; linarith)]
  · unfold mechErrStep
    rw [if_neg (by intro h; exact LinkState.noConfusion h)]

theorem mechQuietState (N : ℕ) (c0 : List ℚ)
    (hc : ∀ i, c0.getD i 0 ≤ 4) :
    ∀ i, mechStateAt N (fun _ => mtdQuiet) c0 i =
      ⟨.up, 0, initCounters, c0⟩ := by
  intro i
  induction i with
  | zero => rfl
  | succ i ih =>
    rw [mechStateAt_succ, ih]
    unfold mechStep
    dsimp only
    rw [show mtdQuiet.flapU = 1 from rfl,
      linkAdvance_quiet _ (mechFlapProb_le_quarter _) _ _]
    dsimp only
    rw [mechErrStep_quiet _ _ _ (hc i)]
    rw [if_neg (by rintro ⟨-, h⟩; exact LinkState.noConfusion h),
      if_neg (by rintro ⟨-, h⟩; exact LinkState.noConfusion h)]

theorem mechCurve_ten :
    mechCurve mcdZero 10 =
      some [0, 0, 0, 1 / 2, 1 / 2, 7 / 6, 11 / 6, 23 / 6, 23 / 6, 23 / 6] := by
  unfold mechCurve mechPhases mcdZero mechEarlyRamp mechModRamp
  norm_num [List.range_succ, List.getLast?, List.replicate]

/-- Record 7 (first severe tick) of the concrete 10-tick mechanical series
driven by mtdQuiet. -/
def c9row : Option Row :=
  ((generate_network_telemetry_with_mechanical_issues 10 mcdZero
    (fun _ => mtdQuiet)).getD [])[7]?

theorem c9row_eq :
    c9row = some (mechRowAt 10 (fun _ => mtdQuiet)
      [0, 0, 0, 1 / 2, 1 / 2, 7 / 6, 11 / 6, 23 / 6, 23 / 6, 23 / 6] 7) := by
  unfold c9row generate_network_telemetry_with_mechanical_issues
  rw [mechCurve_ten]
  simp

theorem mcurve_ten_bounded :
    ∀ i, ([0, 0, 0, 1 / 2, 1 / 2, 7 / 6, 11 / 6, 23 / 6, 23 / 6, 23 / 6] :
      List ℚ).getD i 0 ≤ 4 := by
  intro i
  rcases i with _ | _ | _ | _ | _ | _ | _ | _ | _ | _ | i <;>
    norm_num [List.getD]

/-- Claim C9, counterexample to the original claim: on the generated
10-tick mechanical series, the record at tick 7 (degradation 23/6 > 3) is
emitted with the link up and SNR 24.3331, whose rounding to three decimals
is 24.333: the severe-phase SNR jitter is added after rounding, so not
every emitted float equals its own 3-decimal rounding. -/
theorem claim_c9_counterexample :
    c9row.map Row.snr = some (some (243331 / 10000)) ∧
    round3 (243331 / 10000) ≠ (243331 / 10000 : ℚ) := by
  constructor
  · rw [c9row_eq]
    unfold mechRowAt
    rw [mechQuietState 10 _ mcurve_ten_bounded 7]
    unfold mechStep
    dsimp only
    rw [show mtdQuiet.flapU = 1 from rfl,
      linkAdvance_quiet _ (mechFlapProb_le_quarter _) _ _]
    dsimp only
    unfold mechEmit mtdQuiet
    have h733 : round3 ((73 : ℚ) / 3) = 24333 / 1000 := by
      have he := round3_eval ((73 : ℚ) / 3) 24333 (by norm_num) (by norm_num)
      rw [he]
      norm_num
    norm_num [List.getD, h733]
  · have he := round3_eval ((243331 : ℚ) / 10000) 24333 (by norm_num)
      (by norm_num)
    rw [he]
    norm_num

/-! ## Concrete thermal down record (claim C3, counterexample) -/

/-- Thermal tick draws forcing a flap at the first opportunity (uniform
flap draw 0), with a 5-tick cooldown draw and everything else quiet. -/
def ttdDown : ThermalTickDraws :=
  ⟨0, 5, 0, 1, 0, 1, 0, 1, 0, 0, 0, 0, 0, 0, 0, 0, 0⟩

/-- Record 0 of the concrete 10-tick thermal series driven by ttdDown. -/
def c3row : Option Row :=
  ((generate_network_telemetry_with_flapping 10 tcdZero
    (fun _ => ttdDown)).getD [])[0]?

theorem c3row_eq :
    c3row = some (thermalRowAt (fun _ => ttdDown)
      [35, 35, 35, 35, 125 / 3, 145 / 3, 55, 55, 55, 55] 0) := by
  unfold c3row generate_network_telemetry_with_flapping
  rw [thermalCurve_ten]
  simp

/-- Claim C3, counterexample to the original claim: on the generated
10-tick thermal series whose link flaps down at tick 0, the down record
still carries CableLengthEstimate = 10.0 rather than the absent sentinel,
so CableLengthEstimate is not a volatile metric in the thermal scenario. -/
theorem claim_c3_counterexample :
    c3row.map Row.linkState = some .down ∧
    c3row.map Row.cableLengthEstimate = some (some 10) := by
  refine ⟨?_, ?_⟩ <;>
    rw [c3row_eq] <;>
    unfold thermalRowAt thermalStateAt thermalStep thermalEmit linkAdvance
      thermalFlapProb flipLS ttdDown <;>
    norm_num [List.getD]

/-! ## Witnesses: concrete instantiations of the claim theorems -/

/-- Quiet healthy tick draws with the link draw at 1 (link down). -/
def htdDown : HealthyTickDraws :=
  ⟨1, 0, 1, 0, 1, 0, 1, 0, 1, 0, 0, 0, 0, 0, 0, 0, 0, 0, 0⟩

/-- Quiet healthy tick draws with the link draw at 0 (link up). -/
def htdUp : HealthyTickDraws :=
  ⟨0, 0, 1, 0, 1, 0, 1, 0, 1, 0, 0, 0, 0, 0, 0, 0, 0, 0, 0⟩

/-- Mechanical tick draws forcing a flap (uniform flap draw 0) with a
normal cooldown draw of 3. -/
def mtdFlip : MechTickDraws :=
  ⟨0, 0, 3, 0, 0, 1, 0, 1, 0, 1, 0, 0, 0, 0, 0, 0, 0, 0, 0, 0, 0, 0, 0, 0⟩

/-- A mechanical state at the reseat checkpoint of a 5-tick series: link
already down with a positive cooldown. -/
def sC6 : MechState := ⟨.down, 5, ⟨0, 0, 0, 5⟩, [1, 2, 3]⟩

theorem claim_c1_witness :
    rowCountersLE (mechRowAt 5 (fun _ => mtdQuiet) [] 0)
      (mechRowAt 5 (fun _ => mtdQuiet) [] 1) ∧
    rowCountersLE (thermalRowAt (fun _ => ttdQuiet) [] 0)
      (thermalRowAt (fun _ => ttdQuiet) [] 1) ∧
    rowCountersLE (healthyRowAt 1 (fun _ => htdDown) 0)
      (healthyRowAt 1 (fun _ => htdDown) 1) :=
  ⟨claim_c1_counters_monotone.1 5 (fun _ => mtdQuiet) [] 0 1 (by norm_num),
   claim_c1_counters_monotone.2.1 (fun _ => ttdQuiet) [] 0 1 (by norm_num),
   claim_c1_counters_monotone.2.2 1 (fun _ => htdDown) 0 1 (by norm_num)⟩

theorem claim_c2_witness :
    0 < (mechStateAt 5 (fun _ => mtdFlip) [] 1).cooldown ∧
    ((mechRowAt 5 (fun _ => mtdFlip) [] 1).linkState =
      (mechRowAt 5 (fun _ => mtdFlip) [] 0).linkState ∧
    (mechStateAt 5 (fun _ => mtdFlip) [] 2).cooldown =
      (mechStateAt 5 (fun _ => mtdFlip) [] 1).cooldown - 1) := by
  have h : 0 < (mechStateAt 5 (fun _ => mtdFlip) [] 1).cooldown := by
    norm_num [mechStateAt, mechStep, mechErrStep, linkAdvance, mechFlapProb,
      mtdFlip, flipLS, List.getD]
  exact ⟨h, claim_c2_cooldown_holds_state.1 5 (fun _ => mtdFlip) [] 0 h⟩

theorem claim_c4_witness :
    mechFlapProb (1 / 2) = 0.001 ∧ mechFlapProb (3 / 2) = 0.02 ∧
    mechFlapProb (5 / 2) = 0.08 ∧ mechFlapProb 7 = 0.25 ∧
    thermalFlapProb 35 = 0.001 ∧ thermalFlapProb 47 = 0.05 ∧
    thermalFlapProb 55 = 0.20 :=
  ⟨claim_c4_flap_probability.1 (1 / 2) (by norm_num),
   claim_c4_flap_probability.2.1 (3 / 2) (by norm_num) (by norm_num),
   claim_c4_flap_probability.2.2.1 (5 / 2) (by norm_num) (by norm_num),
   claim_c4_flap_probability.2.2.2.1 7 (by norm_num),
   claim_c4_flap_probability.2.2.2.2.2.1 35 (by norm_num),
   claim_c4_flap_probability.2.2.2.2.2.2.1 47 (by norm_num) (by norm_num),
   claim_c4_flap_probability.2.2.2.2.2.2.2.1 55 (by norm_num)⟩

theorem claim_c5_witness :
    ([0, 0, 0, 1 / 2, 1 / 2, 7 / 6, 11 / 6, 23 / 6, 23 / 6, 23 / 6] :
      List ℚ).length = 10 ∧
    mechEarlyRamp 5 1 ≤ mechEarlyRamp 5 2 ∧
    mechModRamp 0 5 1 ≤ mechModRamp 0 5 2 :=
  ⟨claim_c5_mech_phases.2.1 mcdZero 10 _ mechCurve_ten,
   claim_c5_mech_phases.2.2.1 5 1 2 (by norm_num) (by norm_num),
   claim_c5_mech_phases.2.2.2 0 5 1 2 (by norm_num) (by norm_num)⟩

theorem claim_c6_witness :
    ((mechStep 5 mtdQuiet 4 sC6).2.counters.connectorInsertionCount =
      sC6.counters.connectorInsertionCount + 1 ∧
    (mechStep 5 mtdQuiet 4 sC6).2.curve = reseatCurve sC6.curve 4 ∧
    (mechStep 5 mtdQuiet 4 sC6).1.connectorInsertionCount =
      some (sC6.counters.connectorInsertionCount + 1)) ∧
    (reseatCurve [1, 2, 3] 1)[2]? =
      (([1, 2, 3] : List ℚ)[2]?).map (fun x : ℚ => max 0 (x - 2.0)) ∧
    (reseatCurve [1, 2, 3] 5)[2]? = ([1, 2, 3] : List ℚ)[2]? := by
  have hst : (mechStep 5 mtdQuiet 4 sC6).1.linkState = .down :=
    (mechStep_cooldown_pos 5 mtdQuiet 4 sC6 (by norm_num [sC6])).1
  exact ⟨((claim_c6_connector_reseat.1 5 mtdQuiet 4 sC6).1) ⟨by norm_num, hst⟩,
    claim_c6_connector_reseat.2.1 [1, 2, 3] 1 2 (by norm_num) (by norm_num),
    claim_c6_connector_reseat.2.2.1 [1, 2, 3] 5 2 (Or.inl (by norm_num))⟩

theorem claim_c8_witness :
    (healthyRowAt 1 (fun _ => htdUp) 0).humidity = some (153 / 4) ∧
    (30 ≤ (153 / 4 : ℚ) ∧ (153 / 4 : ℚ) ≤ 70) := by
  have h3825 : round3 ((153 : ℚ) / 4) = 153 / 4 := by
    have he := round3_eval ((153 : ℚ) / 4) 38250 (by norm_num) (by norm_num)
    rw [he]
    norm_num
  have h : (healthyRowAt 1 (fun _ => htdUp) 0).humidity = some (153 / 4) := by
    unfold healthyRowAt healthyCountersAt healthyStep healthyLinkState
      healthyInitCounters htdUp portBase clampHumidity
    norm_num [max_def, min_def, h3825]
  exact ⟨h, claim_c8_amended_humidity.1 1 (fun _ => htdUp) 0 (153 / 4) h⟩

theorem claim_c9_witness :
    roundedOpt (mechRowAt 5 (fun _ => mtdQuiet) [] 0).snr ∧
    roundedOpt (mechRowAt 5 (fun _ => mtdQuiet) [] 0).linkLatency := by
  have hdeg : (mechStateAt 5 (fun _ => mtdQuiet) [] 0).curve.getD 0 0 ≤ 3 := by
    norm_num [mechStateAt, List.getD]
  exact (claim_c9_amended_rounding.2.2 5 (fun _ => mtdQuiet) []
    0).2.2.2.2.2.2.2.2.2 hdeg

theorem claim_c10_witness :
    (healthyRowAt 1 (fun _ => htdDown) 0).linkState = .down ∧
    healthyRowAt 1 (fun _ => htdDown) 0 = ⟨.down, none, none, none, none,
      none, none, none, none, none, none, none, none, none, none, none⟩ := by
  have h : (healthyRowAt 1 (fun _ => htdDown) 0).linkState = .down := by
    unfold healthyRowAt healthyCountersAt healthyStep healthyLinkState htdDown
    norm_num
  exact ⟨h, claim_c10_down_record_shape.1 1 (fun _ => htdDown) 0 h⟩

theorem claim_c3_witness :
    (thermalRowAt (fun _ => ttdQuiet) [] 0).cableLengthEstimate = some 10 :=
  (claim_c3_thermal_volatile_fields (fun _ => ttdQuiet) [] 0).2.2.2.2.2.1

theorem claim_c7_witness :
    generate_network_telemetry_with_flapping 4 tcdZero (fun _ => ttdQuiet) ≠
      none ∧
    generate_network_telemetry 0 5 (fun _ _ => htdDown) = none := by
  constructor
  · intro hx
    have h4 := (claim_c7_amended_failure_conditions.1 4 tcdZero
      (fun _ => ttdQuiet)).mp hx
    norm_num at h4
  · exact (claim_c7_amended_failure_conditions.2.2 0 5
      (fun _ _ => htdDown)).mpr (Or.inl rfl)

end AuraTelemetry
